import Mathlib

/-!
Shallow embedding of the client-side session/workflow coordinator of the
Q-A-using-RAG repository: token lifecycle and route gating, upload
validation, file-list refresh, and the conversation log, as implemented
in the several frontend variants present in the source tree.

Each definition is translated from one concrete source location, named in
its doc comment.
-/

namespace RagClient

/-- The browser localStorage keys this application reads and writes.
A value of `none` models an absent key (JS `localStorage.getItem` returning
`null`). -/
structure LStorage where
  token : Option String
  username : Option String
  isAuthenticated : Option String
  filesUploaded : Option String
  chatConversation : Option String
deriving Repr, DecidableEq

/-- An empty localStorage (no keys set). -/
def LStorage.empty : LStorage :=
  { token := none, username := none, isAuthenticated := none,
    filesUploaded := none, chatConversation := none }

/-- Observable side effects issued by the handlers (network calls,
timers, navigation, alerts, location assignment). -/
inductive Act where
  | apiPost (path : String)
  | apiGet (path : String)
  | sleep (ms : Nat)
  | navigate (target : String)
  | navigateAfter (ms : Nat) (target : String)
  | alertMsg (msg : String)
  | locationAssign (url : String)
deriving Repr, DecidableEq

/-- From `src/src/components/Login.js` (handleSubmit success path, lines
60-66): on successful authentication the component stores
`isAuthenticated = 'true'` and the username, then navigates to `/upload`.
Note: this variant never writes a `token` key. -/
def loginJs_success (st : LStorage) (username : String) : LStorage × List Act :=
  ({ st with isAuthenticated := some "true", username := some username },
   [Act.navigate "/upload"])

/-- From `src/src/App.js` lines 86-95 (the `src/services/api.js` response
interceptor bundled in that file): on an error response with status 401 it
removes the `token` key and assigns `window.location.href = '/login'`;
in every error case it rejects the promise (the error is surfaced). -/
def apiResponseInterceptorError (status : Option Nat) (st : LStorage) :
    LStorage × List Act :=
  if status = some 401 then
    ({ st with token := none }, [Act.locationAssign "/login"])
  else
    (st, [])

/-- From `src/unnamed/part_003` lines 232-239 (the other
`src/services/api.js` variant): on a 401 error response it removes both
`token` and `username` and assigns `window.location.href = '/login'`. -/
def apiResponseInterceptorError3 (status : Option Nat) (st : LStorage) :
    LStorage × List Act :=
  if status = some 401 then
    ({ st with token := none, username := none }, [Act.locationAssign "/login"])
  else
    (st, [])

/-- From `src/src/App.js` lines 9-12: `ProtectedRoute` renders its child
(allows access) exactly when `localStorage.getItem('isAuthenticated') ===
'true'`; otherwise it redirects to `/`. -/
def protectedRouteAllows (st : LStorage) : Bool :=
  st.isAuthenticated = some "true"

/-- From `src/src/App.js` lines 15-18: `PublicRoute` renders the login page
exactly when the user is not authenticated; an authenticated user is
redirected to `/upload`. -/
def publicRouteShowsLogin (st : LStorage) : Bool :=
  !(st.isAuthenticated = some "true")

/-- From `src/frontend/src/components/chatUpload/chatUpload.jsx` lines
15-22 (and `src/unnamed/part_005` lines 17-24): the ChatUpload view's
entry effect allows the view only when a `token` key is present; otherwise
it navigates to the login route. -/
def chatUploadGateAllows (st : LStorage) : Bool :=
  st.token.isSome

/-- JavaScript `String.prototype.trim()`: strips leading and trailing
whitespace (executable model; `String.trim` from core is avoided because
it is defined by well-founded recursion and does not evaluate in the
kernel). -/
def jsTrimList (l : List Char) : List Char :=
  ((l.dropWhile Char.isWhitespace).reverse.dropWhile Char.isWhitespace).reverse

/-- `jsTrimList` lifted to strings. -/
def jsTrim (s : String) : String :=
  String.mk (jsTrimList s.toList)

/-- JavaScript `x || d` on an optional string field: `undefined` and the
empty string are falsy, any other string is returned as is. -/
def jsOr (x : Option String) (d : String) : String :=
  match x with
  | none => d
  | some s => if s = "" then d else s

/-- A selected browser file: its name and its size in bytes. -/
structure JsFile where
  name : String
  size : Nat
deriving Repr, DecidableEq

/-- A document record mirrored from the backend `files` response
(`f.id || f.filename` is used as the rendering key, so `id` may be
absent). -/
structure DocRec where
  id : Option Nat
  filename : String
deriving Repr, DecidableEq

/-- Outcome of one `api.get('/files')` call: success carries the optional
`files` field of the response body; failure is any rejected request. -/
inductive FetchOutcome where
  | ok (files : Option (List DocRec))
  | fail
deriving Repr, DecidableEq

/-- From `src/frontend/src/components/chatUpload/chatUpload.jsx` lines
24-31: `fetchFiles` issues one `GET /files`; on success it replaces the
cached list with `res.data.files || []`; on failure it only logs, leaving
the cached list unchanged. Returns the new cache. -/
def chatUploadFE_fetchFiles (o : FetchOutcome) (cache : List DocRec) :
    List DocRec :=
  match o with
  | .ok files => files.getD []
  | .fail => cache

/-- From `src/unnamed/part_005` lines 27-38: `fetchFiles(retryCount = 1)`
issues one `GET /files`; on success it replaces the cache with
`res.data.files || []`; on failure, if `retryCount > 0` it schedules
`fetchFiles(retryCount - 1)` after 500 ms, otherwise it gives up leaving
the cache unchanged. `backend` gives the outcome of the i-th GET; the
result is the final cache together with the number of GET attempts
issued. -/
def fetchFiles005 (backend : Nat → FetchOutcome) :
    Nat → Nat → List DocRec → List DocRec × Nat
  | retryCount, i, cache =>
    match backend i with
    | .ok files => (files.getD [], i + 1)
    | .fail =>
      match retryCount with
      | 0 => (cache, i + 1)
      | r + 1 => fetchFiles005 backend r (i + 1) cache

/-- `fetchFiles()` as invoked in `src/unnamed/part_005` (default argument
`retryCount = 1`). -/
def fetchFiles005_default (backend : Nat → FetchOutcome)
    (cache : List DocRec) : List DocRec × Nat :=
  fetchFiles005 backend 1 0 cache

/-- Error information available on a rejected axios call in the upload
handlers: a timeout (`err.code === 'ECONNABORTED'`) or any other
rejection, carrying the optional `err.response.data.error` and
`err.message` fields. -/
inductive UploadErr where
  | econnaborted
  | other (respError : Option String) (message : Option String)
deriving Repr, DecidableEq

/-- Outcome of the `POST /upload` call in the ChatUpload variants:
success carries the optional `res.data.message`; failure carries the
optional `err.response.data.error`. -/
inductive ChatUploadResult where
  | ok (message : Option String)
  | err (respError : Option String)
deriving Repr, DecidableEq

/-- State of the ChatUpload component (both variants): cached file list
and the uploading flag (chat state is modelled separately). -/
structure ChatUploadState where
  uploadedFiles : List DocRec
  isUploading : Bool
deriving Repr, DecidableEq

/-- True exactly for the actions that issue a network request. -/
def isNetworkCall : Act → Bool
  | .apiPost _ => true
  | .apiGet _ => true
  | _ => false

/-- From `src/frontend/src/components/chatUpload/chatUpload.jsx` lines
39-63: `handleFileChange`. No file selected: return. A file larger than
5 MB (5 * 1024 * 1024 bytes): alert and return, before any network call.
Otherwise `POST /upload`; on success re-fetch the file list and alert the
server message (or a default); on failure alert the server error (or a
default). -/
def chatUploadFE_handleFileChange (st : ChatUploadState)
    (selected : Option JsFile) (result : ChatUploadResult)
    (fetch : FetchOutcome) : ChatUploadState × List Act :=
  match selected with
  | none => (st, [])
  | some f =>
    if f.size > 5 * 1024 * 1024 then
      (st, [Act.alertMsg "File > 5MB. Choose a smaller file."])
    else
      match result with
      | .ok msg =>
        let files' := chatUploadFE_fetchFiles fetch st.uploadedFiles
        ({ uploadedFiles := files', isUploading := false },
         [Act.apiPost "/upload", Act.apiGet "/files",
          Act.alertMsg (jsOr msg "Uploaded successfully")])
      | .err e =>
        ({ st with isUploading := false },
         [Act.apiPost "/upload", Act.alertMsg (jsOr e "Upload failed")])

/-- From `src/unnamed/part_005` lines 47-75: `handleFileChange`. Same
shape as the `frontend` variant but with a 1000 ms settle delay before
the re-fetch, the `part_005` alert texts, and the retrying `fetchFiles`.
The emitted trace contains one `GET /files` per fetch attempt. -/
def chatUpload005_handleFileChange (st : ChatUploadState)
    (selected : Option JsFile) (result : ChatUploadResult)
    (backend : Nat → FetchOutcome) : ChatUploadState × List Act :=
  match selected with
  | none => (st, [])
  | some f =>
    if f.size > 5 * 1024 * 1024 then
      (st, [Act.alertMsg "File size exceeds 5MB. Please choose a smaller file."])
    else
      match result with
      | .ok msg =>
        let r := fetchFiles005_default backend st.uploadedFiles
        ({ uploadedFiles := r.1, isUploading := false },
         [Act.apiPost "/upload", Act.sleep 1000] ++
          List.replicate r.2 (Act.apiGet "/files") ++
          [Act.alertMsg (jsOr msg "File uploaded successfully")])
      | .err e =>
        ({ st with isUploading := false },
         [Act.apiPost "/upload", Act.alertMsg (jsOr e "Upload failed")])

/-- State of the `Upload` component of `src/unnamed/part_000`. -/
structure UploadState0 where
  file : Option JsFile
  isLoading : Bool
  error : String
  success : Bool
  progress : Nat
deriving Repr, DecidableEq

/-- JavaScript `Math.round(a / b)` on non-negative operands. -/
def jsMathRoundDiv (a b : Nat) : Nat :=
  (2 * a + b) / (2 * b)

/-- From `src/unnamed/part_000` lines 48-53: the `onUploadProgress`
callback stores `Math.round(loaded * 100 / total)`. -/
def upload0_onUploadProgress (loaded total : Nat) : Nat :=
  jsMathRoundDiv (loaded * 100) total

/-- From `src/unnamed/part_000` lines 14-27: `handleFileChange`. A
selected file larger than 5 MB sets the error message and returns without
touching the stored file — the oversized selection is never stored, so the
submit path can never transfer it. Any other selection (including a
cancelled dialog, `undefined`) is stored and error/success/progress are
reset. -/
def upload0_handleFileChange (st : UploadState0)
    (selected : Option JsFile) : UploadState0 :=
  match selected with
  | some f =>
    if f.size > 5 * 1024 * 1024 then
      { st with error := "File size exceeds 5MB limit" }
    else
      { st with file := some f, error := "", success := false, progress := 0 }
  | none =>
    { st with file := none, error := "", success := false, progress := 0 }

/-- From `src/unnamed/part_000` lines 29-67: `handleSubmit`. Without a
stored file it sets an error and returns. Otherwise it issues the single
`POST /upload` (30 s timeout, with progress callbacks whose last value is
`progressAfterTransfer`); on success it sets the success flag and
schedules `navigate('/chatbot')` after 1500 ms; on failure it sets the
error text chosen by the error kind. -/
def upload0_handleSubmit (st : UploadState0) (o : Option UploadErr)
    (progressAfterTransfer : Nat) : UploadState0 × List Act :=
  match st.file with
  | none => ({ st with error := "Please select a file" }, [])
  | some _ =>
    match o with
    | none =>
      ({ st with isLoading := false, error := "", success := true,
                 progress := progressAfterTransfer },
       [Act.apiPost "/upload", Act.navigateAfter 1500 "/chatbot"])
    | some .econnaborted =>
      ({ st with isLoading := false,
                 error := "Processing took too long. Try a smaller file.",
                 progress := progressAfterTransfer },
       [Act.apiPost "/upload"])
    | some (.other respErr msg) =>
      ({ st with isLoading := false,
                 error := jsOr respErr (jsOr msg "Upload failed. Please try again."),
                 progress := progressAfterTransfer },
       [Act.apiPost "/upload"])

/-- A conversation message as created by `src/unnamed/part_001` (the
persisting Chatbot): the objects are built with exactly `text` and
`sender`; reading any other property (e.g. `isError`) yields `undefined`,
modelled by the `none` default. -/
structure Msg001 where
  text : String
  sender : String
  isError : Option Bool := none
deriving Repr, DecidableEq

/-- State of the `src/unnamed/part_001` Chatbot component. -/
structure ChatState1 where
  message : String
  conversation : List Msg001
  isLoading : Bool
deriving Repr, DecidableEq

/-- Outcome of the `POST /chat` call of `src/unnamed/part_001`: success
carries `response.data.reply`; failure is any rejection. -/
inductive Chat1Outcome where
  | ok (reply : String)
  | fail
deriving Repr, DecidableEq

/-- From `src/unnamed/part_001` lines 24-51: `handleSubmit`. If the input
is blank after trimming, or a prior send is still pending
(`isLoading`), it returns at once: no state change and no network call.
Otherwise it appends the user message, clears the input, marks loading,
issues the single `POST /chat`, appends on success the bot reply and on
failure one fixed bot error message (built with only `text` and `sender`,
no `isError` property), and finally clears the loading flag. -/
def handleSubmit001 (st : ChatState1) (o : Chat1Outcome) :
    ChatState1 × List Act :=
  if jsTrim st.message = "" ∨ st.isLoading then
    (st, [])
  else
    let userMessage : Msg001 := { text := st.message, sender := "user" }
    let updatedConversation := st.conversation ++ [userMessage]
    match o with
    | .ok reply =>
      ({ message := "", isLoading := false,
         conversation := updatedConversation ++
           [{ text := reply, sender := "bot" }] },
       [Act.apiPost "/chat"])
    | .fail =>
      ({ message := "", isLoading := false,
         conversation := updatedConversation ++
           [{ text := "Error: Could not get response from the server",
              sender := "bot" }] },
       [Act.apiPost "/chat"])

/-- A conversation message as created by `src/unnamed/part_003`:
`id`, `text`, `sender`, `timestamp` (a `Date`, modelled as milliseconds)
and the `isError` flag, which is absent (falsy) except on error
messages. -/
structure Msg3 where
  id : Nat
  text : String
  sender : String
  timestamp : Nat
  isError : Bool := false
deriving Repr, DecidableEq

/-- State of the `src/unnamed/part_003` Chatbot component. -/
structure ChatState3 where
  messages : List Msg3
  inputMessage : String
  isLoading : Bool
  error : String
deriving Repr, DecidableEq

/-- The shape of a rejected axios call in `src/unnamed/part_003`'s chat
handler: timeout, a response with a status, a request that got no
response, or anything else. -/
inductive AxiosErr where
  | econnaborted
  | response (status : Nat)
  | request
  | other
deriving Repr, DecidableEq

/-- From `src/unnamed/part_003` lines 70-79: the human-readable error
text chosen by the error kind. -/
def chat3ErrText : AxiosErr → String
  | .econnaborted => "Request timed out. Please try again."
  | .response s => "Server error: " ++ toString s ++ ". Please try again."
  | .request => "Unable to connect to the server. Please check your connection."
  | .other => "Sorry, I encountered an error while processing your message."

/-- Outcome of the `POST /chat` call of `src/unnamed/part_003`: success
carries the optional `response.data.reply`; failure carries the error
shape. -/
inductive Chat3Outcome where
  | ok (reply : Option String)
  | err (e : AxiosErr)
deriving Repr, DecidableEq

/-- From `src/unnamed/part_003` lines 29-93: `handleSendMessage`. If the
trimmed input is empty or a prior send is pending (`isLoading`), it
returns at once: no state change, no network call. Otherwise it appends
the user message (id/timestamp from `Date.now()`/`new Date()`, taken at
invocation time `now`), clears the input, marks loading, clears the error
banner, and issues the single `POST /chat`. On success it appends one bot
message whose text is `response.data.reply || fallback` (time `now2`); on
failure it appends exactly one bot message flagged `isError: true` with
the kind-chosen text and sets the error banner; finally it clears the
loading flag. -/
def handleSendMessage3 (st : ChatState3) (now now2 : Nat)
    (o : Chat3Outcome) : ChatState3 × List Act :=
  if jsTrim st.inputMessage = "" ∨ st.isLoading then
    (st, [])
  else
    let userMessage : Msg3 :=
      { id := now, text := jsTrim st.inputMessage, sender := "user",
        timestamp := now }
    let afterUser := st.messages ++ [userMessage]
    match o with
    | .ok reply =>
      ({ messages := afterUser ++
           [{ id := now2 + 1,
              text := jsOr reply "Sorry, I couldn\x27t generate a response.",
              sender := "bot", timestamp := now2 }],
         inputMessage := "", isLoading := false, error := "" },
       [Act.apiPost "/chat"])
    | .err e =>
      let m := chat3ErrText e
      ({ messages := afterUser ++
           [{ id := now2 + 1, text := m, sender := "bot",
              timestamp := now2, isError := true }],
         inputMessage := "", isLoading := false, error := m },
       [Act.apiPost "/chat"])

/-- From `src/frontend/src/components/chatUpload/chatUpload.jsx` lines
84-87 (and `src/unnamed/part_005` lines 97-100): `handleLogout` only
navigates to the login route; it removes nothing from localStorage
(the source comment reads "Keep localStorage values, just navigate
away"). -/
def chatUpload_handleLogout (st : LStorage) : LStorage × List Act :=
  (st, [Act.navigate "/login"])

/-- From `src/unnamed/part_007` lines 14-17: the Navbar `handleLogout`
removes the `token` key and navigates to `/login`. -/
def navbar7_handleLogout (st : LStorage) : LStorage × List Act :=
  ({ st with token := none }, [Act.navigate "/login"])

/-- From `src/unnamed/part_006` lines 76-80: the other Navbar
`handleLogout` removes `token` and `username` and navigates to
`/login`. -/
def navbar6_handleLogout (st : LStorage) : LStorage × List Act :=
  ({ st with token := none, username := none }, [Act.navigate "/login"])

/-- From `src/unnamed/part_003` lines 103-108 and `src/unnamed/part_004`
lines 104-108: `handleLogout` in the `isAuthenticated` variant removes
`isAuthenticated`, `username` and `filesUploaded` and navigates to
`/`. -/
def chat3_handleLogout (st : LStorage) : LStorage × List Act :=
  ({ st with isAuthenticated := none, username := none,
             filesUploaded := none },
   [Act.navigate "/"])

/-! ### Persistence of the part_001 conversation log

`src/unnamed/part_001` persists the conversation with
`localStorage.setItem('chatConversation', JSON.stringify(conversation))`
and restores it with `JSON.parse(localStorage.getItem(...))`. The
messages stored there are objects with exactly the keys `text` and
`sender` (in that insertion order), so `JSON.stringify` produces
`[{"text":...,"sender":...},...]` with JSON string escaping.
`jsonParseMsgs` models `JSON.parse` specialised to this snapshot shape:
any input outside the shape is malformed (real `JSON.parse` would either
throw on it or produce a value that is not a message array, which crashes
the component when rendered). -/

/-- Lowercase hex digit, as emitted by `JSON.stringify` in `\u00XX`
escapes. -/
def hexDigitChar (n : Nat) : Char :=
  if n < 10 then Char.ofNat (48 + n) else Char.ofNat (87 + n)

/-- JSON string escaping of one character, following `JSON.stringify`:
quote and backslash are escaped, the named control escapes are used for
backspace/tab/newline/formfeed/return, other control characters become
`\u00XX`, everything else is emitted raw. -/
def escChar (c : Char) : List Char :=
  if c = '"' then ['\\', '"']
  else if c = '\\' then ['\\', '\\']
  else if c = '\x08' then ['\\', 'b']
  else if c = '\x09' then ['\\', 't']
  else if c = '\x0a' then ['\\', 'n']
  else if c = '\x0c' then ['\\', 'f']
  else if c = '\x0d' then ['\\', 'r']
  else if c.toNat < 32 then
    ['\\', 'u', '0', '0', hexDigitChar (c.toNat / 16), hexDigitChar (c.toNat % 16)]
  else [c]

/-- JSON string escaping of a character sequence. -/
def escList : List Char → List Char
  | [] => []
  | c :: cs => escChar c ++ escList cs

/-- Numeric value of a hex digit accepted by `JSON.parse` in `\uXXXX`. -/
def hexVal (c : Char) : Option Nat :=
  if '0' ≤ c ∧ c ≤ '9' then some (c.toNat - 48)
  else if 'a' ≤ c ∧ c ≤ 'f' then some (c.toNat - 87)
  else if 'A' ≤ c ∧ c ≤ 'F' then some (c.toNat - 55)
  else none

/-- `JSON.parse` of a string body (after the opening quote): returns the
decoded characters and the remainder after the closing quote. Raw control
characters and unknown escapes are rejected, as in JSON. -/
def parseStrBody : List Char → Option (List Char × List Char)
  | [] => none
  | '"' :: rest => some ([], rest)
  | '\\' :: 'u' :: h1 :: h2 :: h3 :: h4 :: rest =>
    match hexVal h1, hexVal h2, hexVal h3, hexVal h4 with
    | some a, some b, some c, some d =>
      (parseStrBody rest).map
        (fun r => (Char.ofNat (((a * 16 + b) * 16 + c) * 16 + d) :: r.1, r.2))
    | _, _, _, _ => none
  | '\\' :: c :: rest =>
    let ec : Option Char :=
      if c = '"' then some '"'
      else if c = '\\' then some '\\'
      else if c = '/' then some '/'
      else if c = 'b' then some '\x08'
      else if c = 'f' then some '\x0c'
      else if c = 'n' then some '\x0a'
      else if c = 'r' then some '\x0d'
      else if c = 't' then some '\x09'
      else none
    match ec with
    | some e => (parseStrBody rest).map (fun r => (e :: r.1, r.2))
    | none => none
  | c :: rest =>
    if c.toNat < 32 then none
    else (parseStrBody rest).map (fun r => (c :: r.1, r.2))

/-- Consume an expected literal character sequence, returning the
remainder. -/
def dropLit : List Char → List Char → Option (List Char)
  | [], l => some l
  | _ :: _, [] => none
  | p :: ps, c :: cs => if c = p then dropLit ps cs else none

/-- The opening of a serialized part_001 message object, up to and
including the opening quote of the `text` value. -/
def objKey1 : List Char := ("\x7b\"text\":\"").toList

/-- The middle of a serialized part_001 message object, up to and
including the opening quote of the `sender` value. -/
def objKey2 : List Char := (",\"sender\":\"").toList

/-- `JSON.stringify` of one part_001 message object (keys in insertion
order `text`, `sender`; the `isError` property is `undefined` on these
objects and `JSON.stringify` omits undefined properties). -/
def encObj (m : Msg001) : List Char :=
  objKey1 ++ escList m.text.toList ++ ['"'] ++
  objKey2 ++ escList m.sender.toList ++ ['"', '\x7d']

/-- `JSON.stringify` of the array items following the opening bracket:
comma-separated objects, then the closing bracket. -/
def encItems : List Msg001 → List Char
  | [] => [']']
  | m :: ms => encObj m ++ (if ms.isEmpty then [']'] else ',' :: encItems ms)

/-- Parse one serialized message object, returning it and the
remainder. -/
def parseObj (l : List Char) : Option (Msg001 × List Char) :=
  match dropLit objKey1 l with
  | none => none
  | some r1 =>
    match parseStrBody r1 with
    | none => none
    | some (t, r2) =>
      match dropLit objKey2 r2 with
      | none => none
      | some r3 =>
        match parseStrBody r3 with
        | none => none
        | some (s, r4) =>
          match r4 with
          | '\x7d' :: r5 => some ({ text := String.mk t, sender := String.mk s }, r5)
          | _ => none

/-- Parse the comma-separated message objects following the opening
bracket, consuming the closing bracket and requiring end of input
(`fuel` bounds the recursion; one unit is spent per object). -/
def parseItems : Nat → List Char → Option (List Msg001)
  | 0, _ => none
  | fuel + 1, l =>
    match parseObj l with
    | none => none
    | some (m, rest) =>
      match rest with
      | [']'] => some [m]
      | ',' :: rest2 => (parseItems fuel rest2).map (fun ms => m :: ms)
      | _ => none

/-- `JSON.parse` specialised to the part_001 conversation snapshot shape:
an array of `{"text":...,"sender":...}` objects. `none` models a thrown
`SyntaxError` (or a snapshot that is not a message array). -/
def jsonParseMsgs (s : String) : Option (List Msg001) :=
  match s.toList with
  | '[' :: rest => if rest = [']'] then some [] else parseItems rest.length rest
  | _ => none

/-- `JSON.stringify` of a part_001 conversation array. -/
def jsonStringifyMsgs (msgs : List Msg001) : String :=
  String.mk ('[' :: encItems msgs)

/-- From `src/unnamed/part_001` lines 19-22: the save effect writes
`JSON.stringify(conversation)` under the `chatConversation` key. -/
def saveConversation (msgs : List Msg001) : String :=
  jsonStringifyMsgs msgs

/-- From `src/unnamed/part_001` lines 12-17: the load effect reads the
`chatConversation` key; a `null` (absent) or empty-string value is falsy,
so the conversation keeps its initial value `[]` (the log starts fresh);
otherwise `JSON.parse` runs — on a well-formed snapshot its result
becomes the conversation, on a malformed one it throws (modelled as
`Except.error`). -/
def loadConversation (stored : Option String) :
    Except String (List Msg001) :=
  match stored with
  | none => Except.ok []
  | some s =>
    if s = "" then Except.ok []
    else
      match jsonParseMsgs s with
      | some msgs => Except.ok msgs
      | none => Except.error "SyntaxError in JSON.parse"

/-! ### Roundtrip lemmas for the persistence model -/

theorem stringMk_toList (s : String) : String.mk s.toList = s := by
  cases s; rfl

theorem hexVal_hexDigitChar : ∀ n, n < 16 → hexVal (hexDigitChar n) = some n := by
  decide

theorem dropLit_append (p r : List Char) : dropLit p (p ++ r) = some r := by
  induction p with
  | nil => rfl
  | cons c cs ih => simpa [dropLit] using ih

theorem parse_escList (s rest : List Char) :
    parseStrBody (escList s ++ '"' :: rest) = some (s, rest) := by
  induction s with
  | nil => rfl
  | cons c cs ih =>
    rw [escList, escChar]
    split_ifs with h1 h2 h3 h4 h5 h6 h7 h8
    · subst h1; simp [parseStrBody, ih]
    · subst h2; simp [parseStrBody, ih]
    · subst h3; simp [parseStrBody, ih]
    · subst h4; simp [parseStrBody, ih]
    · subst h5; simp [parseStrBody, ih]
    · subst h6; simp [parseStrBody, ih]
    · subst h7; simp [parseStrBody, ih]
    · have hq : c.toNat / 16 < 16 := by omega
      have hr : c.toNat % 16 < 16 := Nat.mod_lt _ (by norm_num)
      simp only [List.cons_append, List.nil_append, parseStrBody,
        hexVal_hexDigitChar _ hq, hexVal_hexDigitChar _ hr]
      have h0 : hexVal '0' = some 0 := by decide
      have hv : c.toNat / 16 * 16 + c.toNat % 16 = c.toNat := by omega
      simp [h0, hv, Char.ofNat_toNat, ih]
    · simp [parseStrBody, h1, h2, h8, ih]

theorem parseObj_enc (m : Msg001) (hm : m.isError = none) (rest : List Char) :
    parseObj (encObj m ++ rest) = some (m, rest) := by
  obtain ⟨t, s, e⟩ := m
  simp only [Msg001.isError] at hm
  subst hm
  unfold parseObj encObj
  simp only [List.append_assoc, List.cons_append, List.nil_append,
    List.singleton_append, dropLit_append, parse_escList]
  simp [stringMk_toList]

theorem length_le_encItems (msgs : List Msg001) :
    msgs.length ≤ (encItems msgs).length := by
  induction msgs with
  | nil => simp [encItems]
  | cons m ms ih =>
    cases ms with
    | nil => simp [encItems]
    | cons m2 ms2 =>
      rw [encItems, if_neg (by simp)]
      simp only [List.length_append, List.length_cons] at ih ⊢
      omega

theorem parseItems_enc (msgs : List Msg001)
    (hnone : ∀ m ∈ msgs, m.isError = none) (hne : msgs ≠ []) :
    ∀ fuel, msgs.length ≤ fuel → parseItems fuel (encItems msgs) = some msgs := by
  induction msgs with
  | nil => exact absurd rfl hne
  | cons m ms ih =>
    intro fuel hfuel
    obtain ⟨f, rfl⟩ : ∃ f, fuel = f + 1 :=
      ⟨fuel - 1, by simp at hfuel; omega⟩
    rw [encItems, parseItems]
    cases ms with
    | nil =>
      rw [if_pos (by simp), parseObj_enc m (hnone m (by simp))]
      rfl
    | cons m2 ms2 =>
      rw [if_neg (by simp), parseObj_enc m (hnone m (by simp))]
      have hrec : parseItems f (encItems (m2 :: ms2)) = some (m2 :: ms2) := by
        refine ih (fun x hx => hnone x (by simp [hx])) (by simp) f ?_
        simp at hfuel ⊢
        omega
      simp [hrec]

/-! ### Helper predicates over action traces -/

/-- True for navigation signals (immediate or scheduled). -/
def isNavAct : Act → Bool
  | .navigate _ => true
  | .navigateAfter _ _ => true
  | _ => false

/-- True for a file-list refresh call (`GET /files`). -/
def isFilesGet : Act → Bool
  | .apiGet p => p = "/files"
  | _ => false

/-! ### Claims -/

/-- C1: the claim says every 401 clears the session credential and every
subsequent gate decision for a protected view denies access. This theorem
evaluates the `src/src` variant at the failing input: after a login
through `src/src/components/Login.js` (which sets `isAuthenticated`, not
`token`), a 401-handled response clears only `token` and assigns
`/login`, yet `ProtectedRoute` still allows every protected view and
`PublicRoute` bounces the user away from the login view — the gate never
denies. The `frontend` variant's token-checking gate, by contrast, does
deny after its interceptor runs. -/
theorem C1_unauthorized_gate_not_denied :
    (apiResponseInterceptorError (some 401)
        (loginJs_success { LStorage.empty with token := some "tok" } "alice").1).1.token
        = none ∧
    (apiResponseInterceptorError (some 401)
        (loginJs_success { LStorage.empty with token := some "tok" } "alice").1).2
        = [Act.locationAssign "/login"] ∧
    protectedRouteAllows
      (apiResponseInterceptorError (some 401)
        (loginJs_success { LStorage.empty with token := some "tok" } "alice").1).1
        = true ∧
    publicRouteShowsLogin
      (apiResponseInterceptorError (some 401)
        (loginJs_success { LStorage.empty with token := some "tok" } "alice").1).1
        = false ∧
    chatUploadGateAllows
      (apiResponseInterceptorError3 (some 401)
        { LStorage.empty with token := some "tok", username := some "alice" }).1
        = false := by
  refine ⟨rfl, rfl, ?_, ?_, ?_⟩ <;> decide

/-- C2: a selected file whose size exceeds the 5 MB limit is rejected by
validation and the handler issues no network call for that selection: in
both ChatUpload variants the emitted trace contains no request, and in
the part_000 Upload component the oversized file is never stored, so the
transfer branch cannot run on it. -/
theorem C2_oversized_rejected_no_network (f : JsFile)
    (hf : f.size > 5 * 1024 * 1024) :
    (∀ st r fetch,
      chatUploadFE_handleFileChange st (some f) r fetch =
        (st, [Act.alertMsg "File > 5MB. Choose a smaller file."])) ∧
    (∀ st r backend,
      chatUpload005_handleFileChange st (some f) r backend =
        (st, [Act.alertMsg "File size exceeds 5MB. Please choose a smaller file."])) ∧
    (∀ st, upload0_handleFileChange st (some f) =
      { st with error := "File size exceeds 5MB limit" }) := by
  refine ⟨fun st r fetch => ?_, fun st r backend => ?_, fun st => ?_⟩ <;>
    simp [chatUploadFE_handleFileChange, chatUpload005_handleFileChange,
      upload0_handleFileChange, hf]

/-- C2 witness: a 6 MB selection concretely exceeds the limit and the
ChatUpload handler emits only the alert. -/
theorem C2_witness :
    (6 * 1024 * 1024 > 5 * 1024 * 1024) ∧
    chatUploadFE_handleFileChange ⟨[], false⟩ (some ⟨"big.pdf", 6 * 1024 * 1024⟩)
        (ChatUploadResult.ok none) FetchOutcome.fail =
      (⟨[], false⟩, [Act.alertMsg "File > 5MB. Choose a smaller file."]) :=
  ⟨by norm_num,
   (C2_oversized_rejected_no_network ⟨"big.pdf", 6 * 1024 * 1024⟩ (by norm_num)).1
     ⟨[], false⟩ (ChatUploadResult.ok none) FetchOutcome.fail⟩

/-- C3: invoking the chat send handler while a prior send is pending
(`isLoading`) is a no-op in both cited variants: the state is unchanged
(in particular the input is not appended to the log) and no backend call
is issued, so sends are serialized. -/
theorem C3_send_while_pending_noop :
    (∀ (st : ChatState3) (now now2 : Nat) (o : Chat3Outcome),
      st.isLoading = true → handleSendMessage3 st now now2 o = (st, [])) ∧
    (∀ (st : ChatState1) (o : Chat1Outcome),
      st.isLoading = true → handleSubmit001 st o = (st, [])) := by
  refine ⟨fun st now now2 o h => ?_, fun st o h => ?_⟩ <;>
    simp [handleSendMessage3, handleSubmit001, h]

/-- C3 witness: a concrete pending state is left untouched with an empty
trace. -/
theorem C3_witness :
    (ChatState3.isLoading ⟨[], "next question", true, ""⟩ = true) ∧
    handleSendMessage3 ⟨[], "next question", true, ""⟩ 5 7
        (Chat3Outcome.ok (some "r")) = (⟨[], "next question", true, ""⟩, []) ∧
    (ChatState1.isLoading ⟨"hi", [], true⟩ = true) ∧
    handleSubmit001 ⟨"hi", [], true⟩ (Chat1Outcome.ok "r") = (⟨"hi", [], true⟩, []) :=
  ⟨rfl,
   C3_send_while_pending_noop.1 ⟨[], "next question", true, ""⟩ 5 7
     (Chat3Outcome.ok (some "r")) rfl,
   rfl,
   C3_send_while_pending_noop.2 ⟨"hi", [], true⟩ (Chat1Outcome.ok "r") rfl⟩

/-- C4 counterexample: the claim (from the spec scenario) says a
file-list fetch that fails twice succeeds on the third bounded attempt
and the final state is the fetched list. Under `part_005`'s
`fetchFiles` with its default `retryCount = 1`, a backend that fails on
attempts 0 and 1 and would succeed on attempt 2 is never asked a third
time: exactly 2 GET attempts are made and the cache keeps its old value,
not the fetchable list. -/
theorem C4_counterexample :
    fetchFiles005_default
        (fun i => if i < 2 then FetchOutcome.fail
                  else FetchOutcome.ok (some [⟨some 1, "new.pdf"⟩]))
        [⟨some 0, "old.pdf"⟩] = ([⟨some 0, "old.pdf"⟩], 2) ∧
    ([⟨some 0, "old.pdf"⟩] : List DocRec) ≠ [⟨some 1, "new.pdf"⟩] := by
  constructor
  · rfl
  · decide

/-- C4 (amended): `fetchFiles` retries once after a failure (at most 2
GET attempts in total, the retry coming 500 ms later), and when both
attempts fail the previously cached list is preserved unchanged — a
failed refresh never empties a populated cache. -/
theorem C4_bounded_retry_preserves_cache (backend : Nat → FetchOutcome)
    (cache : List DocRec) :
    (fetchFiles005_default backend cache).2 ≤ 2 ∧
    (backend 0 = FetchOutcome.fail → backend 1 = FetchOutcome.fail →
      fetchFiles005_default backend cache = (cache, 2)) := by
  unfold fetchFiles005_default
  constructor
  · cases h0 : backend 0 with
    | ok files => simp [fetchFiles005, h0]
    | fail =>
      cases h1 : backend 1 with
      | ok files => simp [fetchFiles005, h0, h1]
      | fail => simp [fetchFiles005, h0, h1]
  · intro h0 h1
    simp [fetchFiles005, h0, h1]

/-- C4 witness: with a backend failing on both consulted attempts, the
populated cache survives and exactly two attempts were made. -/
theorem C4_witness :
    ((fun _ : Nat => FetchOutcome.fail) 0 = FetchOutcome.fail) ∧
    fetchFiles005_default (fun _ => FetchOutcome.fail) [⟨some 0, "old.pdf"⟩] =
      ([⟨some 0, "old.pdf"⟩], 2) :=
  ⟨rfl,
   (C4_bounded_retry_preserves_cache (fun _ => FetchOutcome.fail)
     [⟨some 0, "old.pdf"⟩]).2 rfl rfl⟩

/-- C5 counterexample: the claim says every failed send appends exactly
one assistant message flagged `isError=true`. In the `part_001` handler
the appended assistant error message is built with only `text` and
`sender`: its `isError` property is `undefined` (`none`), so the log
after a concrete failed send contains no message flagged
`isError=true`. -/
theorem C5_counterexample :
    (handleSubmit001 ⟨"hello", [], false⟩ Chat1Outcome.fail).1.conversation =
      [{ text := "hello", sender := "user" },
       { text := "Error: Could not get response from the server", sender := "bot" }] ∧
    ((handleSubmit001 ⟨"hello", [], false⟩ Chat1Outcome.fail).1.conversation.filter
        (fun m => m.isError == some true)).length = 0 := by
  constructor <;> rfl

/-- C5 (amended): a failed send appends exactly one assistant error
message after the optimistically appended user message, which is neither
duplicated nor removed; in the `part_003` handler that message is flagged
`isError=true` and carries the kind-chosen human-readable text, while in
the `part_001` handler it carries a fixed human-readable text with no
`isError` flag. -/
theorem C5_failed_send_appends_one_error (st1 : ChatState1)
    (st3 : ChatState3) (now now2 : Nat) (e : AxiosErr)
    (h1m : jsTrim st1.message ≠ "") (h1l : st1.isLoading = false)
    (h3m : jsTrim st3.inputMessage ≠ "") (h3l : st3.isLoading = false) :
    (handleSubmit001 st1 Chat1Outcome.fail).1.conversation =
      st1.conversation ++
        [{ text := st1.message, sender := "user" },
         { text := "Error: Could not get response from the server",
           sender := "bot" }] ∧
    (handleSendMessage3 st3 now now2 (Chat3Outcome.err e)).1.messages =
      st3.messages ++
        [{ id := now, text := jsTrim st3.inputMessage, sender := "user",
           timestamp := now },
         { id := now2 + 1, text := chat3ErrText e, sender := "bot",
           timestamp := now2, isError := true }] := by
  constructor <;>
    simp [handleSubmit001, handleSendMessage3, h1m, h1l, h3m, h3l]

/-- C5 witness: a concrete failed send in the part_001 handler. -/
theorem C5_witness :
    (jsTrim (ChatState1.message ⟨"hi", [], false⟩) ≠ "") ∧
    (handleSubmit001 ⟨"hi", [], false⟩ Chat1Outcome.fail).1.conversation =
      ChatState1.conversation ⟨"hi", [], false⟩ ++
        [{ text := "hi", sender := "user" },
         { text := "Error: Could not get response from the server",
           sender := "bot" }] :=
  ⟨by decide,
   (C5_failed_send_appends_one_error ⟨"hi", [], false⟩ ⟨[], "q", false, ""⟩ 1 2
      AxiosErr.econnaborted (by decide) rfl (by decide) rfl).1⟩

theorem jsonParse_stringify (msgs : List Msg001)
    (hmsgs : ∀ m ∈ msgs, m.isError = none) :
    jsonParseMsgs (jsonStringifyMsgs msgs) = some msgs := by
  cases msgs with
  | nil => rfl
  | cons m ms =>
    have hk1 : objKey1.length = 9 := rfl
    have hk2 : objKey2.length = 11 := rfl
    have hne : encItems (m :: ms) ≠ [']'] := by
      intro h
      have hlen := congrArg List.length h
      rw [encItems] at hlen
      cases ms with
      | nil =>
        rw [if_pos (by simp)] at hlen
        simp only [encObj, List.length_append, List.length_cons,
          List.length_nil] at hlen
        omega
      | cons m2 ms2 =>
        rw [if_neg (by simp)] at hlen
        simp only [encObj, List.length_append, List.length_cons,
          List.length_nil] at hlen
        omega
    show jsonParseMsgs (String.mk ('[' :: encItems (m :: ms))) = _
    unfold jsonParseMsgs
    show (if encItems (m :: ms) = [']'] then some [] else
      parseItems (encItems (m :: ms)).length (encItems (m :: ms))) = _
    rw [if_neg hne]
    exact parseItems_enc (m :: ms) hmsgs (by simp) _ (length_le_encItems _)

/-- C6: persisting the part_001 conversation (the messages it creates
carry only `text` and `sender`; `isError` is undefined) and loading it
back restores an equal message sequence: `JSON.parse` inverts
`JSON.stringify` on these snapshots, so save followed by load is the
identity on the message sequence. -/
theorem C6_save_then_load_restores (msgs : List Msg001)
    (hmsgs : ∀ m ∈ msgs, m.isError = none) :
    loadConversation (some (saveConversation msgs)) = Except.ok msgs := by
  have hne : saveConversation msgs ≠ "" := by
    intro h
    have h2 : '[' :: encItems msgs = [] := congrArg String.toList h
    exact List.cons_ne_nil _ _ h2
  have hparse : jsonParseMsgs (saveConversation msgs) = some msgs :=
    jsonParse_stringify msgs hmsgs
  simp [loadConversation, hne, hparse]

/-- C6 witness: a concrete two-message conversation (with a quote and a
newline in the texts) survives the save/load roundtrip. -/
theorem C6_witness :
    (∀ m ∈ ([{ text := "What is \"RAG\"?\nplease explain", sender := "user" },
             { text := "Retrieval augmented generation.", sender := "bot" }] :
        List Msg001), m.isError = none) ∧
    loadConversation (some (saveConversation
        [{ text := "What is \"RAG\"?\nplease explain", sender := "user" },
         { text := "Retrieval augmented generation.", sender := "bot" }])) =
      Except.ok
        [{ text := "What is \"RAG\"?\nplease explain", sender := "user" },
         { text := "Retrieval augmented generation.", sender := "bot" }] :=
  ⟨by decide,
   C6_save_then_load_restores
     [{ text := "What is \"RAG\"?\nplease explain", sender := "user" },
      { text := "Retrieval augmented generation.", sender := "bot" }]
     (by decide)⟩

/-- C7 counterexample: the claim says a malformed persisted snapshot is
treated as absent and the load does not fail. The part_001 load effect
guards only against an absent (falsy) value; a present malformed
snapshot reaches `JSON.parse` unguarded, which throws — the load
fails. -/
theorem C7_counterexample :
    loadConversation (some "\x7b") =
      Except.error "SyntaxError in JSON.parse" := rfl

/-- C7 (amended): a missing (or empty, hence falsy) persisted snapshot is
treated as absent and the log starts fresh, but a present malformed
snapshot makes `JSON.parse` throw and the load fails. -/
theorem C7_missing_fresh_malformed_throws :
    loadConversation none = Except.ok [] ∧
    loadConversation (some "") = Except.ok [] ∧
    ∀ s : String, s ≠ "" → jsonParseMsgs s = none →
      loadConversation (some s) = Except.error "SyntaxError in JSON.parse" := by
  refine ⟨rfl, rfl, fun s hs hparse => ?_⟩
  simp [loadConversation, hs, hparse]

/-- C7 witness: a concrete malformed snapshot. -/
theorem C7_witness :
    (("oops" : String) ≠ "") ∧ jsonParseMsgs "oops" = none ∧
    loadConversation (some "oops") =
      Except.error "SyntaxError in JSON.parse" :=
  ⟨by decide, rfl,
   C7_missing_fresh_malformed_throws.2.2 "oops" (by decide) rfl⟩

/-- C8 counterexample: the claim says a validated upload that reaches the
succeeded state triggers exactly one FileRegistry refresh and then one
navigation signal. In the part_000 Upload component a concrete successful
3 MB submission emits one `POST /upload` and one scheduled navigation —
and zero `GET /files` refreshes, so the "exactly one refresh" part is
false for this success path. -/
theorem C8_counterexample :
    upload0_handleSubmit
        { file := some ⟨"report.pdf", 3 * 1024 * 1024⟩, isLoading := true,
          error := "", success := false, progress := 90 } none 100 =
      ({ file := some ⟨"report.pdf", 3 * 1024 * 1024⟩, isLoading := false,
         error := "", success := true, progress := 100 },
       [Act.apiPost "/upload", Act.navigateAfter 1500 "/chatbot"]) ∧
    ((upload0_handleSubmit
        { file := some ⟨"report.pdf", 3 * 1024 * 1024⟩, isLoading := true,
          error := "", success := false, progress := 90 } none 100).2.filter
      isFilesGet).length = 0 := by
  constructor <;> rfl

/-- C8 (amended): the two success paths split the claimed behavior. In
part_000 a successful submit issues exactly one navigation signal to the
conversation view, scheduled after a 1500 ms settle delay, and no
FileRegistry refresh. In part_005 a successful upload whose follow-up
fetch succeeds at the first attempt triggers, after a 1000 ms settle
delay, exactly one FileRegistry refresh and no navigation signal. -/
theorem C8_success_refresh_and_navigation (st : UploadState0) (f : JsFile)
    (p : Nat) (cst : ChatUploadState) (g : JsFile) (msg : Option String)
    (backend : Nat → FetchOutcome) (files : Option (List DocRec))
    (hfile : st.file = some f) (hg : g.size ≤ 5 * 1024 * 1024)
    (hb0 : backend 0 = FetchOutcome.ok files) :
    (upload0_handleSubmit st none p).2.filter isNavAct =
        [Act.navigateAfter 1500 "/chatbot"] ∧
    (upload0_handleSubmit st none p).2.filter isFilesGet = [] ∧
    (chatUpload005_handleFileChange cst (some g) (ChatUploadResult.ok msg)
        backend).2 =
      [Act.apiPost "/upload", Act.sleep 1000, Act.apiGet "/files",
       Act.alertMsg (jsOr msg "File uploaded successfully")] ∧
    ((chatUpload005_handleFileChange cst (some g) (ChatUploadResult.ok msg)
        backend).2.filter isFilesGet).length = 1 ∧
    (chatUpload005_handleFileChange cst (some g) (ChatUploadResult.ok msg)
        backend).2.filter isNavAct = [] := by
  have hng : ¬ g.size > 5 * 1024 * 1024 := by omega
  have htrace : (chatUpload005_handleFileChange cst (some g)
      (ChatUploadResult.ok msg) backend).2 =
      [Act.apiPost "/upload", Act.sleep 1000, Act.apiGet "/files",
       Act.alertMsg (jsOr msg "File uploaded successfully")] := by
    simp [chatUpload005_handleFileChange, hng, fetchFiles005_default,
      fetchFiles005, hb0]
  refine ⟨?_, ?_, htrace, ?_, ?_⟩ <;>
    simp [upload0_handleSubmit, hfile, htrace, isNavAct, isFilesGet,
      List.filter]

/-- C8 witness: concrete instances of both success paths. -/
theorem C8_witness :
    (UploadState0.file
        { file := some ⟨"report.pdf", 3145728⟩, isLoading := true,
          error := "", success := false, progress := 90 } =
      some ⟨"report.pdf", 3145728⟩) ∧
    ((3145728 : Nat) ≤ 5 * 1024 * 1024) ∧
    (upload0_handleSubmit
        { file := some ⟨"report.pdf", 3145728⟩, isLoading := true,
          error := "", success := false, progress := 90 } none 100).2.filter
      isNavAct = [Act.navigateAfter 1500 "/chatbot"] ∧
    ((chatUpload005_handleFileChange ⟨[], false⟩ (some ⟨"report.pdf", 3145728⟩)
        (ChatUploadResult.ok (some "ok"))
        (fun _ => FetchOutcome.ok (some []))).2.filter isFilesGet).length = 1 :=
  ⟨rfl, by norm_num,
   (C8_success_refresh_and_navigation
      { file := some ⟨"report.pdf", 3145728⟩, isLoading := true, error := "",
        success := false, progress := 90 } ⟨"report.pdf", 3145728⟩ 100
      ⟨[], false⟩ ⟨"report.pdf", 3145728⟩ (some "ok")
      (fun _ => FetchOutcome.ok (some [])) (some []) rfl (by norm_num) rfl).1,
   (C8_success_refresh_and_navigation
      { file := some ⟨"report.pdf", 3145728⟩, isLoading := true, error := "",
        success := false, progress := 90 } ⟨"report.pdf", 3145728⟩ 100
      ⟨[], false⟩ ⟨"report.pdf", 3145728⟩ (some "ok")
      (fun _ => FetchOutcome.ok (some [])) (some []) rfl (by norm_num) rfl).2.2.2.1⟩

/-- C9 counterexample: the claim says every logout destroys the session.
The ChatUpload logout handler (both the `frontend` file and part_005)
only navigates to the login route and removes nothing: after it runs, the
token store still yields the session credential. -/
theorem C9_counterexample :
    chatUpload_handleLogout
        { token := some "tok", username := some "alice",
          isAuthenticated := none, filesUploaded := none,
          chatConversation := none } =
      ({ token := some "tok", username := some "alice",
         isAuthenticated := none, filesUploaded := none,
         chatConversation := none }, [Act.navigate "/login"]) ∧
    (chatUpload_handleLogout
        { token := some "tok", username := some "alice",
          isAuthenticated := none, filesUploaded := none,
          chatConversation := none }).1.token ≠ none := by
  constructor
  · rfl
  · decide

/-- C9 (amended): logout semantics differ per variant. The Navbar
handlers destroy the credential: part_007 clears `token`, part_006 clears
`token` and `username`, both then navigate to login; the ChatUpload
handlers navigate to login leaving localStorage (including the token)
unchanged. -/
theorem C9_logout_variants (st : LStorage) :
    (navbar7_handleLogout st).1.token = none ∧
    (navbar6_handleLogout st).1.token = none ∧
    (navbar6_handleLogout st).1.username = none ∧
    chatUpload_handleLogout st = (st, [Act.navigate "/login"]) :=
  ⟨rfl, rfl, rfl, rfl⟩

/-- C10: a file-list refresh that succeeds with a response body lacking
the `files` field replaces the cached list with `undefined || []`, i.e.
the empty list — even when the previous cache was populated — in both the
`frontend` fetcher and the part_005 retrying fetcher. -/
theorem C10_missing_files_field_clears_cache (cache : List DocRec) :
    chatUploadFE_fetchFiles (FetchOutcome.ok none) cache = [] ∧
    fetchFiles005_default (fun _ => FetchOutcome.ok none) cache = ([], 1) :=
  ⟨rfl, rfl⟩

end RagClient
